/-
Verification of the DigiGlucose-Insight orchestration and inference core.

This file shallowly embeds the decision logic of `backend/app/agents.py`,
`backend/app/orchestrator.py` and `backend/app/weekly_report.py` in Lean 4 and
proves the testable properties of the specification against it.

Modelling conventions:
* Python floats are modelled as exact rationals (`ℚ`); glucose values in the
  repository are short decimals, and all claims under study are threshold
  comparisons, which agree with exact rational arithmetic.
* Text is modelled as `List Char`; `str.lower()` is modelled for the ASCII
  range (`pyLower`), which is the only range the repository's patterns use.
* `re.search` is modelled by a scanner that tries every start position from
  the left, exactly like the leftmost-match semantics of the Python engine.
  The repository's patterns are literal segments joined by `.*` (which does
  not cross newlines), optionally with `\d+(\.\d+)?`, `\s*`, a character
  class, or a two-way alternation; each is modelled directly.
* Database reads are modelled by passing the queried rows as arguments, and
  writes by returning the updated row list.
-/
import Mathlib

set_option autoImplicit false

namespace DigiGlucose

/-! ## Python string primitives -/

/-- `str.lower()` restricted to ASCII, the only range used by the patterns. -/
def pyLower (c : Char) : Char :=
  if 'A' ≤ c && c ≤ 'Z' then Char.ofNat (c.toNat + 32) else c

/-- ASCII decimal digit, as matched by `\d` on the repository's inputs. -/
def pyIsDigit (c : Char) : Bool :=
  '0' ≤ c && c ≤ '9'

/-- The characters matched by `\s` (ASCII range). -/
def pyIsSpace (c : Char) : Bool :=
  c = ' ' || c = '\t' || c = '\n' || c = '\r' || c = '\x0b' || c = '\x0c'

/-- Lowercased character list of a string: `text.lower()`. -/
def lowerList (text : String) : List Char :=
  text.toList.map pyLower

/-- Python's `needle in haystack` substring test. -/
def containsSub (p : List Char) : List Char → Bool
  | [] => p.isEmpty
  | c :: u => List.isPrefixOf p (c :: u) || containsSub p (u)

/-!
## Segment patterns

Every pattern of `detect_context_from_colloquial` is a sequence of literal
segments joined by `.*`.  `matchSegs segs free u` decides whether `u` has a
match of the segments in order; `free` records whether the pending gap may
cross a newline (`true` only for the leading gap, which models `re.search`
trying every start position — `.` itself never matches `'\n'`).
-/
def matchSegsAux : ℕ → List (List Char) → Bool → List Char → Bool
  | 0, segs, _, _ => segs.isEmpty
  | _ + 1, [], _, _ => true
  | fuel + 1, s :: rest, free, u =>
    (List.isPrefixOf s u && matchSegsAux fuel rest false (u.drop s.length)) ||
    (match u with
     | [] => false
     | c :: u2 => (free || !(c = '\n')) && matchSegsAux fuel (s :: rest) free u2)

/-- Entry point with an adequate step bound: every recursive call of
`matchSegsAux` consumes a segment or a character, so `segs.length + u.length`
steps always suffice and the bound never truncates a match (at fuel 0 the
segment list is necessarily empty, which is the same `true` the unbounded
recursion returns). -/
def matchSegs (segs : List (List Char)) (free : Bool) (u : List Char) : Bool :=
  matchSegsAux (segs.length + u.length) segs free u

/-- `re.search(pat, u)` for a `.*`-joined segment pattern `pat`. -/
def matchPat (segs : List (List Char)) (u : List Char) : Bool :=
  matchSegs segs true u

/-- Does any pattern of the tier match (the `for pattern in …: if re.search`
loop body of the source)? -/
def anyPat (tier : List (List (List Char))) (u : List Char) : Bool :=
  tier.any (fun segs => matchPat segs u)

/-! ## Number scanning: `(\d+(?:\.\d+)?)` -/

/-- Numeric value of a digit run. -/
def digitsVal (ds : List Char) : ℕ :=
  ds.foldl (fun n c => 10 * n + (c.toNat - '0'.toNat)) 0

/--
Match `\d+(?:\.\d+)?` at the head of `u`; returns the captured value and the
rest of the input.  The optional fractional group matches only when the dot
is followed by at least one digit, exactly as the regex group does.
-/
def parseNum (u : List Char) : Option (ℚ × List Char) :=
  let ds := u.takeWhile pyIsDigit
  if ds.isEmpty then none else
  let r := u.drop ds.length
  match r with
  | '.' :: r2 =>
    let fs := r2.takeWhile pyIsDigit
    if fs.isEmpty then some ((digitsVal ds : ℚ), r)
    else some ((digitsVal ds : ℚ) + (digitsVal fs : ℚ) / (10 : ℚ) ^ fs.length, r2.drop fs.length)
  | _ => some ((digitsVal ds : ℚ), r)

/-- Leftmost-match search: try the matcher at each start position from the
left, as `re.search` does. -/
def reSearch {α : Type} (f : List Char → Option α) : List Char → Option α
  | [] => f []
  | c :: u =>
    match f (c :: u) with
    | some v => some v
    | none => reSearch f u

/-! ## `extract_glucose_value` (agents.py lines 16–28) -/

/-- Pattern `(\d+(?:\.\d+)?)\s*(?:mmol|mg)` anchored at the current position. -/
def glucosePat1At (u : List Char) : Option ℚ :=
  match parseNum u with
  | none => none
  | some (q, r) =>
    let r2 := r.dropWhile pyIsSpace
    if List.isPrefixOf "mmol".toList r2 || List.isPrefixOf "mg".toList r2 then some q else none

/-- Pattern `血糖[是\s]*(\d+(?:\.\d+)?)` anchored at the current position. -/
def glucosePat2At (u : List Char) : Option ℚ :=
  if List.isPrefixOf "血糖".toList u then
    let r := (u.drop ("血糖".toList.length)).dropWhile (fun c => c = '是' || pyIsSpace c)
    match parseNum r with
    | some (q, _) => some q
    | none => none
  else none

/-- Pattern `(\d+(?:\.\d+)?)` anchored at the current position. -/
def glucosePat3At (u : List Char) : Option ℚ :=
  match parseNum u with
  | some (q, _) => some q
  | none => none

/-- `extract_glucose_value(text)`: the three patterns are tried in order over
the whole text (case-insensitivity modelled by lowering first; the patterns
only contain lowercase letters and digits). -/
def extract_glucose_value (text : String) : Option ℚ :=
  let t := lowerList text
  match reSearch glucosePat1At t with
  | some q => some q
  | none =>
    match reSearch glucosePat2At t with
    | some q => some q
    | none => reSearch glucosePat3At t

/-! ## `detect_unit`, `convert_glucose_unit` (agents.py lines 31–47) -/

/-- `detect_unit(text)`: `"mg/dL"` when the lowercased text contains `"mg"`
(or the redundant `"mg/dl"`), else the `"mmol/L"` default. -/
def detect_unit (text : String) : String :=
  let t := lowerList text
  if containsSub "mg".toList t || containsSub "mg/dl".toList t then "mg/dL" else "mmol/L"

/-- `convert_glucose_unit(value, from_unit, to_unit)`. -/
def convert_glucose_unit (value : ℚ) (from_unit to_unit : String) : ℚ :=
  if from_unit = to_unit then value
  else if from_unit = "mg/dL" && to_unit = "mmol/L" then value / 18
  else if from_unit = "mmol/L" && to_unit = "mg/dL" then value * 18
  else value

/-! ## Meal-type and hours-after-meal extraction (agents.py lines 50–90) -/

/-- `infer_meal_type(timestamp)`: fixed hour bands. -/
def infer_meal_type (hour : ℕ) : String :=
  if 6 ≤ hour ∧ hour < 10 then "breakfast"
  else if 10 ≤ hour ∧ hour < 14 then "lunch"
  else if 14 ≤ hour ∧ hour < 18 then "snack"
  else if 18 ≤ hour ∧ hour < 22 then "dinner"
  else "other"

/-- `detect_meal_type_from_text(text)`. -/
def detect_meal_type_from_text (text : String) : Option String :=
  let t := lowerList text
  if containsSub "早餐".toList t || containsSub "早饭".toList t || containsSub "breakfast".toList t then
    some "breakfast"
  else if containsSub "午餐".toList t || containsSub "午饭".toList t || containsSub "lunch".toList t then
    some "lunch"
  else if containsSub "晚餐".toList t || containsSub "晚饭".toList t || containsSub "dinner".toList t then
    some "dinner"
  else if containsSub "加餐".toList t || containsSub "snack".toList t then
    some "snack"
  else none

/-- Pattern `餐后[(\s]*(\d+(?:\.\d+)?)\s*小时` anchored at the current position. -/
def hoursPat1At (u : List Char) : Option ℚ :=
  if List.isPrefixOf "餐后".toList u then
    let r := (u.drop ("餐后".toList.length)).dropWhile (fun c => c = '(' || pyIsSpace c)
    match parseNum r with
    | some (q, r2) =>
      if List.isPrefixOf "小时".toList (r2.dropWhile pyIsSpace) then some q else none
    | none => none
  else none

/-- Pattern `(\d+(?:\.\d+)?)\s*小时[后]` anchored at the current position. -/
def hoursPat2At (u : List Char) : Option ℚ :=
  match parseNum u with
  | some (q, r) =>
    if List.isPrefixOf "小时后".toList (r.dropWhile pyIsSpace) then some q else none
  | none => none

/-- Pattern `(\d+(?:\.\d+)?)h` anchored at the current position. -/
def hoursPat3At (u : List Char) : Option ℚ :=
  match parseNum u with
  | some (q, r) => if List.isPrefixOf "h".toList r then some q else none
  | none => none

/-- `extract_hours_after_meal(text)`: the three patterns tried in order. -/
def extract_hours_after_meal (text : String) : Option ℚ :=
  let t := lowerList text
  match reSearch hoursPat1At t with
  | some q => some q
  | none =>
    match reSearch hoursPat2At t with
    | some q => some q
    | none => reSearch hoursPat3At t

/-! ## `detect_context_from_colloquial` (agents.py lines 93–180) -/

/-- A `.*`-joined pattern written as its literal segments. -/
def seg (ss : List String) : List (List Char) :=
  ss.map String.toList

/-- The fasting tier of patterns (checked first, highest priority). -/
def fasting_keywords : List (List (List Char)) :=
  [seg ["没吃饭", "时候", "测"], seg ["没吃饭", "测"], seg ["饿", "一晚上", "测"],
   seg ["饿", "晚上", "测"], seg ["没吃早饭", "测"], seg ["没吃早餐", "测"],
   seg ["肚子空", "时候", "测"], seg ["肚子空", "测"], seg ["空腹"], seg ["fasting"],
   seg ["饿着", "测"], seg ["空着", "测"]]

/-- The pre-meal tier of patterns (checked second). -/
def pre_meal_keywords : List (List (List Char)) :=
  [seg ["吃饭前", "测"], seg ["准备开饭", "时候", "测"], seg ["准备开饭", "测"],
   seg ["没吃饭之前", "测"], seg ["要吃饭", "先测"], seg ["餐前"], seg ["pre", "meal"],
   seg ["饭前"]]

/-- The post-meal tier of patterns (checked third). -/
def post_meal_keywords : List (List (List Char)) :=
  [seg ["吃完", "饭后", "测"], seg ["刚吃完", "饭", "测"], seg ["吃饱", "东西", "测"],
   seg ["吃饱", "测"], seg ["用餐结束", "测"], seg ["餐后"], seg ["post", "meal"],
   seg ["饭后"], seg ["吃完", "测"]]

/-- The random tier of patterns (checked last, lowest priority). -/
def random_keywords : List (List (List Char)) :=
  [seg ["随便", "时候", "测"], seg ["想起来", "测"], seg ["没固定时间", "测"],
   seg ["任意时候", "测"], seg ["随机"], seg ["random"], seg ["随便", "测"],
   seg ["任意", "测"]]

/-- `detect_context_from_colloquial(text)`: first-match-wins cascade over the
four tiers, in source order. -/
def detect_context_from_colloquial (text : String) : Option String :=
  let t := lowerList text
  if anyPat fasting_keywords t then some "fasting"
  else if anyPat pre_meal_keywords t then some "pre_meal"
  else if anyPat post_meal_keywords t then some "post_meal"
  else if anyPat random_keywords t then some "random"
  else none

/-!
## Decimal formatting

`f"{value:.1f}"` on a Python float rounds the binary double half-to-even;
the repository's values are short decimals, modelled here by exact rational
half-to-even rounding.  `fmtShort` stands in for `f"{value}"` (`repr` of the
float), printed as the exact decimal expansion trimmed to 12 fractional
digits.  No claim under study depends on the printed digits.
-/

/-- Round to the nearest integer, ties to even. -/
def roundHalfEven (q : ℚ) : ℤ :=
  let f := ⌊q⌋
  if q - f < 1 / 2 then f
  else if q - f > 1 / 2 then f + 1
  else if f % 2 = 0 then f else f + 1

/-- `f"{q:.1f}"`. -/
def fmt1 (q : ℚ) : String :=
  let n := roundHalfEven (q * 10)
  if n < 0 then
    "-" ++ toString ((-n) / 10) ++ "." ++ toString ((-n) % 10)
  else
    toString (n / 10) ++ "." ++ toString (n % 10)

/-- Fractional decimal digits of `q` (`0 ≤ q < 1`), up to `k` digits, with
trailing zeros trimmed. -/
def fracDigits : ℕ → ℚ → List Char
  | 0, _ => []
  | k + 1, q =>
    let d := ⌊q * 10⌋.toNat
    let rest := fracDigits k (q * 10 - ⌊q * 10⌋)
    if d = 0 ∧ rest = [] ∧ q * 10 - ⌊q * 10⌋ = 0 then []
    else Char.ofNat ('0'.toNat + d % 10) :: rest

/-- `f"{q}"` for a nonnegative float value. -/
def fmtShort (q : ℚ) : String :=
  let i := ⌊q⌋
  let frac := fracDigits 12 (q - i)
  if frac.isEmpty then toString i ++ ".0"
  else toString i ++ "." ++ String.mk frac

/-! ## `InstantAnalysisAgent._get_target_range` (agents.py lines 619–633) -/

/-- The per-user clinical target fields of the `User` row. -/
structure UserTargets where
  fasting_target_min : Option ℚ
  fasting_target_max : Option ℚ
  post_meal_target_max : Option ℚ
  deriving DecidableEq

/-- Python truthiness of a nullable float column (`None` and `0.0` are falsy). -/
def pyTruthyQ : Option ℚ → Bool
  | none => false
  | some q => !(q = 0)

/-- `_get_target_range(user, context)`. -/
def get_target_range (user : UserTargets) (context : Option String) : ℚ × ℚ :=
  if context = some "fasting" then
    if pyTruthyQ user.fasting_target_min && pyTruthyQ user.fasting_target_max then
      ((user.fasting_target_min).getD 4.4, (user.fasting_target_max).getD 7.2)
    else (4.4, 7.2)
  else if context = some "post_meal" then
    if pyTruthyQ user.post_meal_target_max then (0, (user.post_meal_target_max).getD 10)
    else (0, 10)
  else (3.9, 11.1)

/-! ## `InstantAnalysisAgent._assess_risk` (agents.py lines 635–710) -/

/-- The `(risk_level, conclusion, reasoning, suggestions)` tuple returned by
`_assess_risk`. -/
structure RiskAssessment where
  risk_level : String
  conclusion : String
  reasoning : String
  suggestions : List String
  deriving DecidableEq

/-- `_assess_risk(value, target_min, target_max, context)` (the `context`
parameter is unused by the source body; it is kept for signature fidelity). -/
def assess_risk (value target_min target_max : ℚ) (context : Option String) : RiskAssessment :=
  if value < 3.9 then
    { risk_level := "critical"
      conclusion := "低血糖风险"
      reasoning := "您的血糖值" ++ fmt1 value ++ " mmol/L低于安全阈值3.9 mmol/L，属于低血糖。"
      suggestions :=
        ["请立即补充速效碳水化合物（如糖果、果汁、葡萄糖片）", "15分钟后复测血糖",
         "如症状持续或加重，请立即就医", "注意：本建议仅供参考，紧急情况请及时联系医生"] }
  else if value ≥ 16.7 then
    { risk_level := "critical"
      conclusion := "极高血糖风险"
      reasoning := "您的血糖值" ++ fmt1 value ++ " mmol/L非常高，需要立即关注。"
      suggestions :=
        ["请多喝水，保持水分", "密切监测症状", "建议尽快联系医生或前往医院",
         "注意：本建议仅供参考，紧急情况请及时就医"] }
  else if value ≥ 11.1 then
    { risk_level := "high"
      conclusion := "血糖偏高"
      reasoning := "您的血糖值" ++ fmt1 value ++ " mmol/L偏高。"
      suggestions :=
        ["建议多喝水", "适当增加运动", "检查最近的饮食和用药情况", "如持续偏高，建议咨询医生"] }
  else if value < target_min then
    { risk_level := "moderate"
      conclusion := "血糖偏低"
      reasoning := "您的血糖值" ++ fmt1 value ++ " mmol/L略低于目标范围。"
      suggestions := ["注意监测，避免低血糖", "适当调整饮食"] }
  else if target_min ≤ value ∧ value ≤ target_max then
    { risk_level := "normal"
      conclusion := "血糖在目标范围内"
      reasoning := "您的血糖值" ++ fmt1 value ++ " mmol/L在目标范围内，控制得很好！"
      suggestions := ["继续保持当前的饮食和运动习惯", "定期监测血糖"] }
  else
    { risk_level := "moderate"
      conclusion := "血糖略高于目标"
      reasoning := "您的血糖值" ++ fmt1 value ++ " mmol/L略高于目标范围。"
      suggestions := ["注意饮食搭配", "适当增加运动", "继续监测"] }

/-! ## `DataLoggingAgent.log_glucose` (agents.py lines 208–326) -/

/-- Python truthiness of a nullable string (`None` and `""` are falsy). -/
def pyTruthyStr : Option String → Bool
  | none => false
  | some s => !(s = "")

/-- A Python dict value, as returned across the agent boundary. -/
inductive PyVal where
  | pbool (b : Bool)
  | pstr (s : String)
  | pnum (q : ℚ)
  | pint (n : ℤ)
  | plist (ss : List String)
  deriving DecidableEq

/-- `d.get(k)`: `None` when the key is absent. -/
def dictGet (d : List (String × PyVal)) (k : String) : Option PyVal :=
  (d.find? (fun kv => kv.fst == k)).map (fun kv => kv.snd)

/-- The `glucose_readings` row created by `log_glucose` (the timestamp is
abstracted to its hour, the only component the logic reads). -/
structure GlucoseReadingRow where
  user_id : ℕ
  value : ℚ
  unit : String
  hour : ℕ
  context : Option String
  meal_type : Option String
  hours_after_meal : Option ℚ
  deriving DecidableEq

/-- The context-resolution block of `log_glucose` (lines 261–286): returns the
resolved context, the possibly-updated hours-after-meal, and the
`missing_info` entries it appends. -/
def log_glucose_context (text : String) (hour : ℕ) (context : Option String)
    (hours_after_meal : Option ℚ) : Option String × Option ℚ × List String :=
  match context with
  | some c => (some c, hours_after_meal, [])
  | none =>
    match detect_context_from_colloquial text with
    | some c => (some c, hours_after_meal, [])
    | none =>
      if containsSub "空腹".toList text.toList || containsSub "fasting".toList (lowerList text) then
        (some "fasting", hours_after_meal, [])
      else if containsSub "餐后".toList text.toList || containsSub "post".toList (lowerList text)
          || !(hours_after_meal = none) then
        match hours_after_meal with
        | some h => (some "post_meal", some h, [])
        | none =>
          match extract_hours_after_meal text with
          | some h => (some "post_meal", some h, [])
          | none => (some "post_meal", none, ["餐后时长"])
      else if containsSub "餐前".toList text.toList || containsSub "pre".toList (lowerList text) then
        (some "pre_meal", hours_after_meal, [])
      else if hour < 10 then (some "fasting", hours_after_meal, [])
      else (some "random", hours_after_meal, ["测量上下文（空腹/餐后）"])

/-- `log_glucose(user_id, text, …)`: returns the created reading row (if any)
and the result dict.  The database-assigned id is passed as `reading_id`. -/
def log_glucose (user_id : ℕ) (text : String) (hour : ℕ)
    (unit context meal_type : Option String) (hours_after_meal : Option ℚ)
    (reading_id : ℕ) : Option GlucoseReadingRow × List (String × PyVal) :=
  match extract_glucose_value text with
  | none =>
    (none,
     [("success", .pbool false),
      ("message", .pstr "抱歉，我没有在您的话里找到血糖数值，请再说一次，比如\"血糖8.5\"。"),
      ("missing_info", .plist ["血糖数值"])])
  | some value =>
    let unitR := unit.getD (detect_unit text)
    let value_mmol := if unitR = "mg/dL" then convert_glucose_unit value "mg/dL" "mmol/L" else value
    let meal := match meal_type with
      | some m => some m
      | none =>
        match detect_meal_type_from_text text with
        | some m => some m
        | none => some (infer_meal_type hour)
    let resolved := log_glucose_context text hour context hours_after_meal
    let ctx := resolved.fst
    let hoursR := resolved.snd.fst
    let missing := resolved.snd.snd
    let row : GlucoseReadingRow :=
      { user_id := user_id, value := value_mmol, unit := "mmol/L", hour := hour,
        context := ctx, meal_type := meal, hours_after_meal := hoursR }
    let message :=
      "已为您记录血糖值：" ++ fmtShort value ++ " " ++ unitR ++ "（" ++ fmt1 value_mmol
        ++ " mmol/L）"
        ++ (if pyTruthyStr ctx then "，测量类型：" ++ ctx.getD "" else "")
        ++ (if missing.isEmpty then "" else "。还需要补充：" ++ String.intercalate ", " missing)
    (some row,
     [("success", .pbool true),
      ("message", .pstr message),
      ("reading_id", .pint reading_id),
      ("value", .pnum value_mmol),
      ("unit", .pstr "mmol/L"),
      ("missing_info", .plist missing)])

/-! ## `InstantAnalysisAgent._analyze_trend` context filter (agents.py 712–759) -/

/-- The trend query's history set: `if context:` adds a context filter, so a
falsy context (None or `""`) leaves the 7-day window unfiltered. -/
def trend_readings (context : Option String) (history : List GlucoseReadingRow) :
    List GlucoseReadingRow :=
  if pyTruthyStr context then history.filter (fun r => r.context == context) else history

/-- The orchestrator's argument to the automatic analysis after a recorded
reading: `result.get("context")` coerced to the `Optional[str]` parameter. -/
def auto_analysis_context (logResult : List (String × PyVal)) : Option String :=
  match dictGet logResult "context" with
  | some (.pstr s) => some s
  | _ => none

/-! ## `OrchestratorAgent._classify_intent` (orchestrator.py lines 162–204) -/

/-- Python `c.isdigit()` over a string (ASCII range). -/
def hasDigit (text : String) : Bool :=
  text.toList.any pyIsDigit

/-- Substring test against the raw message. -/
def inMsg (kw : String) (text : String) : Bool :=
  containsSub kw.toList text.toList

/-- Substring test against the lowercased message. -/
def inMsgLower (kw : String) (text : String) : Bool :=
  containsSub kw.toList (lowerList text)

/-- `_classify_intent(message)`. -/
def classify_intent (message : String) : String :=
  if (inMsg "血糖" message || inMsg "测了" message || inMsg "测量" message) && hasDigit message then
    "record_glucose"
  else if inMsg "吃了" message || inMsg "饮食" message
      || (inMsg "餐" message && (inMsg "记录" message || inMsg "吃" message)) then
    "record_meal"
  else if inMsg "运动" message || inMsg "锻炼" message || inMsg "跑步" message
      || inMsg "走路" message then
    "record_exercise"
  else if inMsg "用药" message || inMsg "吃药" message || inMsg "药物" message then
    "record_medication"
  else if (inMsg "怎么样" message || inMsg "高吗" message || inMsg "低吗" message
      || inMsg "正常吗" message) && inMsg "血糖" message then
    "ask_value_status"
  else if inMsg "周报" message || inMsg "这周" message || inMsg "本周" message
      || inMsg "复盘" message then
    "weekly_report"
  else if inMsg "是什么" message || inMsg "什么意思" message || inMsgLower "gi" message
      || inMsg "解释" message then
    "ask_education"
  else if (["沮丧", "控制不好", "又高了", "失败", "担心", "焦虑"] ++
      ["控制得很好", "达标", "开心", "进步"]).any (fun kw => inMsg kw message) then
    "emotional_support"
  else if inMsg "低血糖" message || inMsg "高血糖" message || inMsg "紧急" message then
    "risk_alert"
  else "general"

/-! ## `OrchestratorAgent._detect_sentiment` (orchestrator.py lines 206–221) -/

/-- `_detect_sentiment(message)`: keyword tiers, anxious before negative
before positive, first match wins. -/
def detect_sentiment (message : String) : String :=
  if (["担心", "害怕", "焦虑", "紧张"] : List String).any (fun kw => inMsgLower kw message) then
    "anxious"
  else if (["沮丧", "控制不好", "又高了", "失败", "失望"] : List String).any
      (fun kw => inMsgLower kw message) then
    "negative"
  else if (["控制得很好", "达标", "开心", "顺利", "进步"] : List String).any
      (fun kw => inMsgLower kw message) then
    "positive"
  else "neutral"

/-! ## `EmotionalSupportAgent.provide_support` (agents.py lines 947–1025) -/

/-- The dict returned by `provide_support` (its unused `user_id` parameter is
omitted). -/
structure SupportResult where
  sentiment : String
  empathy : String
  encouragement : String
  next_steps : List String
  deriving DecidableEq

/-- `provide_support(text)`: the agent's own sentiment cascade, then the fixed
response for each sentiment. -/
def provide_support (text : String) : SupportResult :=
  let sentiment :=
    if (["担心", "害怕", "焦虑", "紧张", "不安", "恐惧"] : List String).any
        (fun kw => inMsgLower kw text) then "anxious"
    else if (["沮丧", "控制不好", "又高了", "失败", "担心", "焦虑", "失望", "没效果", "没用",
        "放弃", "太难了"] : List String).any (fun kw => inMsgLower kw text) then "negative"
    else if (["控制得很好", "达标", "开心", "顺利", "进步", "改善", "好多了", "成功", "坚持",
        "努力", "加油"] : List String).any (fun kw => inMsgLower kw text) then "positive"
    else "neutral"
  if sentiment = "positive" then
    { sentiment := sentiment
      empathy := "看到您的进步，我也为您感到高兴！"
      encouragement := "继续保持当前的良好习惯，您的努力正在带来积极的变化。"
      next_steps := ["记录下今天的成功经验", "继续保持规律的监测", "与医生分享您的进步"] }
  else if sentiment = "negative" then
    { sentiment := sentiment
      empathy := "我理解您的沮丧，血糖管理确实是一个长期的过程，偶尔的波动是正常的。"
      encouragement := "不要因为一次的结果而气馁，重要的是持续的努力和调整。"
      next_steps := ["让我们一起复盘最近的数据，找出可以改进的地方", "设定一个小的、可执行的目标",
        "记住：进步是渐进的，不是一蹴而就的"] }
  else if sentiment = "anxious" then
    { sentiment := sentiment
      empathy := "我理解您的担心，这是很正常的。让我们一步步来，不要给自己太大压力。"
      encouragement := "焦虑是正常的，但我们可以通过科学的管理和监测来减少不确定性。"
      next_steps := ["定期监测可以帮助您更好地了解自己的血糖模式", "与医生沟通您的担忧",
        "记住：您不是一个人在战斗"] }
  else
    { sentiment := sentiment
      empathy := ""
      encouragement := "继续坚持，您正在做正确的事情。"
      next_steps := [] }

/-! ## Reply aggregation (orchestrator.py lines 141–148) -/

/-- Python `list.insert(n, x)` (clamps `n` to the list length). -/
def py_insert {α : Type} (n : ℕ) (x : α) (l : List α) : List α :=
  l.take n ++ x :: l.drop n

/-- Step 6 of `process_message`: if the detected sentiment is negative,
anxious or frustrated and the support empathy is non-empty, the empathy line
is inserted at index 1 of the reply fragments. -/
def insert_empathy (message : String) (reply_parts : List String) : List String :=
  if detect_sentiment message ∈ (["negative", "anxious", "frustrated"] : List String) then
    let support := provide_support message
    if support.empathy = "" then reply_parts
    else py_insert 1 support.empathy reply_parts
  else reply_parts

/-! ## `OrchestratorAgent._update_conversation_state` (orchestrator.py 256–296) -/

/-- A `conversation_states` row. -/
structure ConversationStateRow where
  user_id : ℕ
  session_id : String
  current_topic : String
  intent : String
  sentiment : String
  slots : String
  deriving DecidableEq

/-- Does the row belong to the given user and session? -/
def state_matches (u : ℕ) (s : String) (st : ConversationStateRow) : Bool :=
  st.user_id == u && st.session_id == s

/-- `_update_conversation_state`: the first row of the (user, session) key is
overwritten in place; when none exists a fresh row is appended.  `slots` is
the JSON-serialized slot mapping. -/
def update_conversation_state (u : ℕ) (s : String) (intent sentiment slots : String) :
    List ConversationStateRow → List ConversationStateRow
  | [] => [{ user_id := u, session_id := s, current_topic := intent, intent := intent,
             sentiment := sentiment, slots := slots }]
  | st :: rest =>
    if state_matches u s st then
      { st with
        current_topic := intent
        intent := intent
        sentiment := sentiment
        slots := slots } :: rest
    else st :: update_conversation_state u s intent sentiment slots rest

/-! ## `weekly_report.calculate_target_compliance` (weekly_report.py 180–202) -/

/-- Python's `x or default` on a nullable float column (`None` and `0.0` fall
back to the default). -/
def pyOr (o : Option ℚ) (d : ℚ) : ℚ :=
  match o with
  | none => d
  | some v => if v = 0 then d else v

/-- The per-reading compliance test of `calculate_target_compliance`: the
target range is keyed by the reading's own recorded context. -/
def reading_in_target (user : UserTargets) (r : GlucoseReadingRow) : Bool :=
  if r.context == some "fasting" then
    decide (pyOr user.fasting_target_min 4.4 ≤ r.value ∧
      r.value ≤ pyOr user.fasting_target_max 7.2)
  else if r.context == some "post_meal" then
    decide (r.value ≤ pyOr user.post_meal_target_max 10)
  else
    decide ((3.9 : ℚ) ≤ r.value ∧ r.value ≤ 11.1)

/-- `calculate_target_compliance(readings, user)`. -/
def calculate_target_compliance (readings : List GlucoseReadingRow) (user : UserTargets) : ℚ :=
  if readings.isEmpty then 0
  else ((readings.countP (reading_in_target user) : ℚ) / (readings.length : ℚ)) * 100

/-! ## `weekly_report.identify_patterns` (weekly_report.py 205–245) -/

/-- Meal types in first-appearance order (the insertion order of the Python
dict built by the grouping loop). -/
def meal_type_keys (rs : List GlucoseReadingRow) : List String :=
  rs.foldl
    (fun acc r =>
      match r.meal_type with
      | some m => if acc.contains m then acc else acc ++ [m]
      | none => acc)
    []

/-- The values grouped under one meal type, in reading order. -/
def meal_type_values (rs : List GlucoseReadingRow) (m : String) : List ℚ :=
  rs.filterMap (fun r => if r.meal_type == some m then some r.value else none)

/-- The display-name lookup `{"breakfast": "早餐", …}.get(meal_type, meal_type)`. -/
def meal_display_name (m : String) : String :=
  if m = "breakfast" then "早餐"
  else if m = "lunch" then "午餐"
  else if m = "dinner" then "晚餐"
  else m

/-- `identify_patterns(readings, meals, exercises)`; only the lengths of the
meal and exercise lists are read by the source, so the lists are abstracted
to their lengths. -/
def identify_patterns (rs : List GlucoseReadingRow) (meals_count exercises_count : ℕ) :
    List String :=
  if rs.isEmpty then []
  else
    let mealPats := (meal_type_keys rs).filterMap
      (fun m =>
        let vs := meal_type_values rs m
        let avg := vs.sum / (vs.length : ℚ)
        if avg > 8 then some (meal_display_name m ++ "后血糖平均值偏高（" ++ fmt1 avg ++ " mmol/L）")
        else if avg < 5 then some (meal_display_name m ++ "后血糖平均值偏低（" ++ fmt1 avg ++ " mmol/L）")
        else none)
    let trendPats :=
      if rs.length ≥ 3 then
        let recent := ((rs.drop (rs.length - 3)).map (fun r => r.value)).sum / 3
        let earlier := ((rs.take 3).map (fun r => r.value)).sum / 3
        if recent > earlier * 1.1 then ["本周后期血糖较前期有所上升"]
        else if recent < earlier * 0.9 then ["本周后期血糖较前期有所下降"]
        else []
      else []
    let exercisePats :=
      if exercises_count ≠ 0 then ["本周进行了" ++ toString exercises_count ++ "次运动，继续保持"]
      else []
    mealPats ++ trendPats ++ exercisePats

/-! ## `weekly_report.generate_action_items` (weekly_report.py 248–283) -/

/-- `generate_action_items(readings, user, patterns)`. -/
def generate_action_items (readings : List GlucoseReadingRow) (user : UserTargets)
    (patterns : List String) : List String :=
  if readings.isEmpty then ["开始记录血糖数据"]
  else
    let fromPatterns := patterns.filterMap
      (fun p =>
        if containsSub "偏高".toList p.toList then
          if containsSub "早餐".toList p.toList then some "早餐选择低GI食物，增加蛋白质和膳食纤维"
          else if containsSub "午餐".toList p.toList then some "午餐控制主食份量，注意营养搭配"
          else if containsSub "晚餐".toList p.toList then some "晚餐减少精制碳水，增加蔬菜比例"
          else none
        else none)
    let compliance := calculate_target_compliance readings user
    let complianceItems :=
      if compliance < 70 then ["加强血糖监测频率，及时调整饮食和运动"] else []
    let frequencyItems :=
      if readings.length < 7 then ["建议增加测量频率，每天至少2-3次（不同时间点）"] else []
    let items := fromPatterns ++ complianceItems ++ frequencyItems
    let itemsWithDefault :=
      if items.isEmpty then ["继续保持当前的良好习惯", "定期监测血糖，关注变化趋势"] else items
    itemsWithDefault.take 3

/-! ## `weekly_report.identify_positive_progress` (weekly_report.py 286–312) -/

/-- `identify_positive_progress(readings, user)`.  The source compares the
population standard deviation with 1.5; both sides being nonnegative, this is
modelled by the equivalent comparison of the variance with 1.5². -/
def identify_positive_progress (readings : List GlucoseReadingRow) (user : UserTargets) :
    List String :=
  if readings.isEmpty then []
  else
    let compliance := calculate_target_compliance readings user
    let complianceProgress :=
      if compliance ≥ 80 then ["目标达标率达到" ++ fmt1 compliance ++ "%，表现优秀！"] else []
    let frequencyProgress :=
      if readings.length ≥ 14 then ["本周测量" ++ toString readings.length ++ "次，监测频率良好"]
      else []
    let stabilityProgress :=
      if readings.length ≥ 3 then
        let vs := readings.map (fun r => r.value)
        let mean := vs.sum / (vs.length : ℚ)
        let variance := ((vs.map (fun v => (v - mean) ^ 2)).sum) / (vs.length : ℚ)
        if variance < 9 / 4 then ["血糖波动较小，控制稳定"] else []
      else []
    complianceProgress ++ frequencyProgress ++ stabilityProgress

/-! ## `weekly_report.generate_weekly_report` (weekly_report.py 13–177) -/

/-- A `weekly_reports` row; the window bounds are abstracted to their display
strings and the JSON-serialized lists are kept as lists. -/
structure WeeklyReportRow where
  user_id : ℕ
  week_start : String
  week_end : String
  total_measurements : ℕ
  average_glucose : ℚ
  fasting_average : Option ℚ
  post_meal_average : Option ℚ
  target_compliance_rate : ℚ
  patterns : List String
  action_items : List String
  positive_progress : List String
  deriving DecidableEq

/-- The dict returned by `generate_weekly_report`. -/
structure WeeklyReportResult where
  success : Bool
  content : String
  report_id : Option ℕ
  total_measurements : ℕ
  average_glucose : Option ℚ
  fasting_average : Option ℚ
  post_meal_average : Option ℚ
  target_compliance_rate : Option ℚ
  deriving DecidableEq

/-- The row persisted on the success path, computed from the window's data as
the source does. -/
def weekly_report_row (user_id : ℕ) (readings : List GlucoseReadingRow)
    (meals_count exercises_count : ℕ) (user : UserTargets)
    (week_start week_end : String) : WeeklyReportRow :=
  let total := readings.length
  let avg := (readings.map (fun r => r.value)).sum / (total : ℚ)
  let fasting := readings.filter (fun r => r.context == some "fasting")
  let post := readings.filter (fun r => r.context == some "post_meal")
  let fasting_avg :=
    if fasting.isEmpty then none
    else some ((fasting.map (fun r => r.value)).sum / (fasting.length : ℚ))
  let post_avg :=
    if post.isEmpty then none
    else some ((post.map (fun r => r.value)).sum / (post.length : ℚ))
  let target_compliance := calculate_target_compliance readings user
  let patterns := identify_patterns readings meals_count exercises_count
  let action_items := generate_action_items readings user patterns
  let positive_progress := identify_positive_progress readings user
  { user_id := user_id
    week_start := week_start
    week_end := week_end
    total_measurements := total
    average_glucose := avg
    fasting_average := fasting_avg
    post_meal_average := post_avg
    target_compliance_rate := target_compliance
    patterns := patterns
    action_items := action_items
    positive_progress := positive_progress }

/-- The report text assembled on the success path (lines 98–141); the
`strftime` display of the window bounds is passed in as strings. -/
def weekly_report_content (row : WeeklyReportRow) (meals_count exercises_count : ℕ) : String :=
  let statsParts :=
    ["📊 【本周血糖管理报告】",
     "报告周期：" ++ row.week_start ++ " 至 " ++ row.week_end ++ "\n",
     "【统计数据】",
     "• 总测量次数：" ++ toString row.total_measurements ++ "次",
     "• 平均血糖：" ++ fmt1 row.average_glucose ++ " mmol/L"]
    ++ (if pyTruthyQ row.fasting_average then
          ["• 空腹平均：" ++ fmt1 (row.fasting_average.getD 0) ++ " mmol/L"] else [])
    ++ (if pyTruthyQ row.post_meal_average then
          ["• 餐后平均：" ++ fmt1 (row.post_meal_average.getD 0) ++ " mmol/L"] else [])
    ++ ["• 目标达标率：" ++ fmt1 row.target_compliance_rate ++ "%\n"]
  let patternParts :=
    if row.patterns.isEmpty then []
    else ["【模式识别】"] ++ row.patterns.map (fun p => "• " ++ p) ++ [""]
  let progressParts :=
    if row.positive_progress.isEmpty then []
    else ["【正面进展】"] ++ row.positive_progress.map (fun p => "• " ++ p) ++ [""]
  let actionParts :=
    if row.action_items.isEmpty then []
    else
      ["【行动建议】"]
        ++ (row.action_items.take 3).enum.map (fun p => toString (p.fst + 1) ++ ". " ++ p.snd)
        ++ [""]
  let mealParts :=
    if meals_count ≠ 0 then ["【饮食记录】本周共记录" ++ toString meals_count ++ "次饮食"] else []
  let exerciseParts :=
    if exercises_count ≠ 0 then ["【运动记录】本周共记录" ++ toString exercises_count ++ "次运动"]
    else []
  String.intercalate "\n"
    (statsParts ++ patternParts ++ progressParts ++ actionParts ++ mealParts ++ exerciseParts)

/-- `generate_weekly_report(user_id)`: the week's queried rows are passed as
arguments, the persisted `weekly_reports` table as `reports`, and the
database-assigned id of a new row as `new_report_id`.  Returns the result
dict and the updated table. -/
def generate_weekly_report (user_id : ℕ) (readings : List GlucoseReadingRow)
    (meals_count exercises_count : ℕ) (user : UserTargets)
    (week_start week_end : String) (reports : List WeeklyReportRow)
    (new_report_id : ℕ) : WeeklyReportResult × List WeeklyReportRow :=
  if readings.length = 0 then
    ({ success := false
       content := "本周还没有血糖记录，请开始记录您的血糖数据。"
       report_id := none
       total_measurements := 0
       average_glucose := none
       fasting_average := none
       post_meal_average := none
       target_compliance_rate := none },
     reports)
  else
    let row := weekly_report_row user_id readings meals_count exercises_count user
      week_start week_end
    ({ success := true
       content := weekly_report_content row meals_count exercises_count
       report_id := some new_report_id
       total_measurements := row.total_measurements
       average_glucose := some row.average_glucose
       fasting_average := row.fasting_average
       post_meal_average := row.post_meal_average
       target_compliance_rate := some row.target_compliance_rate },
     reports ++ [row])

/-! # Theorems -/

/-- Claim C8: unit conversion round-trips exactly over the rationals for
every positive value, is the identity on equal units, divides by 18 from
mg/dL to mmol/L and multiplies by 18 in the other direction. -/
theorem convert_glucose_unit_round_trip (x : ℚ) (hx : 0 < x) :
    convert_glucose_unit (convert_glucose_unit x "mmol/L" "mg/dL") "mg/dL" "mmol/L" = x
    ∧ (∀ (y : ℚ) (u : String), convert_glucose_unit y u u = y)
    ∧ convert_glucose_unit x "mg/dL" "mmol/L" = x / 18
    ∧ convert_glucose_unit x "mmol/L" "mg/dL" = x * 18 := by
  have h1 : ("mmol/L" : String) ≠ "mg/dL" := by decide
  have h2 : ("mg/dL" : String) ≠ "mmol/L" := by decide
  refine ⟨?_, fun y u => ?_, ?_, ?_⟩ <;>
    simp [convert_glucose_unit, h1, h2]

/-- Witness for C8 at `x = 3`. -/
theorem convert_glucose_unit_round_trip_witness :
    convert_glucose_unit (convert_glucose_unit 3 "mmol/L" "mg/dL") "mg/dL" "mmol/L" = 3 :=
  (convert_glucose_unit_round_trip 3 (by norm_num)).1

/-- Claim C2: `detect_context_from_colloquial` is the first-match-wins
cascade fasting → pre-meal → post-meal → random → null, and any input
matching both a fasting pattern and a random pattern classifies as fasting,
never random. -/
theorem detect_context_tier_order (t : String) :
    detect_context_from_colloquial t =
      (if anyPat fasting_keywords (lowerList t) then some "fasting"
       else if anyPat pre_meal_keywords (lowerList t) then some "pre_meal"
       else if anyPat post_meal_keywords (lowerList t) then some "post_meal"
       else if anyPat random_keywords (lowerList t) then some "random"
       else none)
    ∧ (anyPat fasting_keywords (lowerList t) = true →
       anyPat random_keywords (lowerList t) = true →
       detect_context_from_colloquial t = some "fasting") := by
  refine ⟨rfl, fun hf _ => ?_⟩
  unfold detect_context_from_colloquial
  simp [hf]

/-- Witness for C2: an adversarial input matching a fasting pattern and a
random pattern resolves to fasting. -/
theorem detect_context_tier_order_witness :
    anyPat fasting_keywords (lowerList "空腹随机测") = true
    ∧ anyPat random_keywords (lowerList "空腹随机测") = true
    ∧ detect_context_from_colloquial "空腹随机测" = some "fasting" :=
  ⟨by decide, by decide,
    (detect_context_tier_order "空腹随机测").2 (by decide) (by decide)⟩

/-- Claim C4: with zero readings in the week window the report generator
returns `success = false` with the no-data message, zero measurements and
absent averages/compliance (the embedded function is total, so no exception
path exists). -/
theorem generate_weekly_report_no_data (user_id meals_count exercises_count : ℕ)
    (user : UserTargets) (ws we : String) (reports : List WeeklyReportRow)
    (rid : ℕ) (readings : List GlucoseReadingRow) (h : readings = []) :
    (generate_weekly_report user_id readings meals_count exercises_count user ws we
        reports rid).fst.success = false
    ∧ (generate_weekly_report user_id readings meals_count exercises_count user ws we
        reports rid).fst.content = "本周还没有血糖记录，请开始记录您的血糖数据。"
    ∧ (generate_weekly_report user_id readings meals_count exercises_count user ws we
        reports rid).fst.total_measurements = 0
    ∧ (generate_weekly_report user_id readings meals_count exercises_count user ws we
        reports rid).fst.average_glucose = none
    ∧ (generate_weekly_report user_id readings meals_count exercises_count user ws we
        reports rid).fst.fasting_average = none
    ∧ (generate_weekly_report user_id readings meals_count exercises_count user ws we
        reports rid).fst.post_meal_average = none
    ∧ (generate_weekly_report user_id readings meals_count exercises_count user ws we
        reports rid).fst.target_compliance_rate = none := by
  subst h
  simp [generate_weekly_report]

/-- Witness for C4 at an empty window. -/
theorem generate_weekly_report_no_data_witness :
    (generate_weekly_report 1 [] 0 0 ⟨none, none, none⟩ "2025-10-06" "2025-10-13"
        [] 1).fst.success = false :=
  (generate_weekly_report_no_data 1 0 0 ⟨none, none, none⟩ "2025-10-06" "2025-10-13"
    [] 1 [] rfl).1

/-- Counterexample to claim C5 as stated: an invocation for a user whose
week window holds no readings persists no weekly-report row at all, so not
every invocation adds a row. -/
theorem generate_weekly_report_empty_adds_no_row :
    (generate_weekly_report 1 [] 0 0 ⟨none, none, none⟩ "2025-10-06" "2025-10-13"
        [] 1).snd.length = 0 := by decide

/-- Claim C5 (amended): every invocation whose week window holds at least
one reading appends exactly one new weekly-report row, with no
deduplication against the existing table (the table is arbitrary, including
tables already holding a report for the same week), so two consecutive
calls within the same week add two rows. -/
theorem generate_weekly_report_appends (user_id meals_count exercises_count : ℕ)
    (user : UserTargets) (ws we : String) (reports : List WeeklyReportRow)
    (rid rid2 : ℕ) (readings : List GlucoseReadingRow) (h : readings ≠ []) :
    (generate_weekly_report user_id readings meals_count exercises_count user ws we
        reports rid).snd
      = reports ++ [weekly_report_row user_id readings meals_count exercises_count user ws we]
    ∧ (generate_weekly_report user_id readings meals_count exercises_count user ws we
        ((generate_weekly_report user_id readings meals_count exercises_count user ws we
          reports rid).snd) rid2).snd.length = reports.length + 2 := by
  have hlen : readings.length ≠ 0 := by
    simpa [List.length_eq_zero] using h
  constructor
  · simp [generate_weekly_report, hlen]
  · simp [generate_weekly_report, hlen]

/-- Witness for C5 (amended) at a one-reading window with a non-empty
pre-existing table for the same week. -/
theorem generate_weekly_report_appends_witness :
    (generate_weekly_report 1 [⟨1, 5, "mmol/L", 8, some "fasting", none, none⟩] 0 0
        ⟨none, none, none⟩ "2025-10-06" "2025-10-13"
        [weekly_report_row 1 [⟨1, 5, "mmol/L", 8, some "fasting", none, none⟩] 0 0
          ⟨none, none, none⟩ "2025-10-06" "2025-10-13"] 2).snd
      = [weekly_report_row 1 [⟨1, 5, "mmol/L", 8, some "fasting", none, none⟩] 0 0
          ⟨none, none, none⟩ "2025-10-06" "2025-10-13",
         weekly_report_row 1 [⟨1, 5, "mmol/L", 8, some "fasting", none, none⟩] 0 0
          ⟨none, none, none⟩ "2025-10-06" "2025-10-13"] :=
  (generate_weekly_report_appends 1 0 0 ⟨none, none, none⟩ "2025-10-06" "2025-10-13"
    [weekly_report_row 1 [⟨1, 5, "mmol/L", 8, some "fasting", none, none⟩] 0 0
      ⟨none, none, none⟩ "2025-10-06" "2025-10-13"] 2 3
    [⟨1, 5, "mmol/L", 8, some "fasting", none, none⟩] (by decide)).1

/-- Claim C1: for every value and every target range with
`target_min < target_max`, the risk cascade's six outcomes are exactly the
six disjoint regions `v < 3.9` (critical low), `v ≥ 16.7` (critical high),
`11.1 ≤ v < 16.7` (high), `3.9 ≤ v < 11.1 ∧ v < target_min` (moderate low),
`3.9 ≤ v < 11.1 ∧ target_min ≤ v ≤ target_max` (normal) and
`3.9 ≤ v < 11.1 ∧ v > target_max` (moderate high), and the regions cover the
whole line, so every value belongs to exactly one tier. -/
theorem assess_risk_partitions (v target_min target_max : ℚ) (context : Option String)
    (h : target_min < target_max) :
    (v < 3.9 ∨ 16.7 ≤ v ∨ (11.1 ≤ v ∧ v < 16.7)
      ∨ (3.9 ≤ v ∧ v < 11.1 ∧ v < target_min)
      ∨ (3.9 ≤ v ∧ v < 11.1 ∧ target_min ≤ v ∧ v ≤ target_max)
      ∨ (3.9 ≤ v ∧ v < 11.1 ∧ target_max < v))
    ∧ (((assess_risk v target_min target_max context).risk_level = "critical"
        ∧ (assess_risk v target_min target_max context).conclusion = "低血糖风险")
       ↔ v < 3.9)
    ∧ (((assess_risk v target_min target_max context).risk_level = "critical"
        ∧ (assess_risk v target_min target_max context).conclusion = "极高血糖风险")
       ↔ 16.7 ≤ v)
    ∧ ((assess_risk v target_min target_max context).risk_level = "high"
       ↔ 11.1 ≤ v ∧ v < 16.7)
    ∧ (((assess_risk v target_min target_max context).risk_level = "moderate"
        ∧ (assess_risk v target_min target_max context).conclusion = "血糖偏低")
       ↔ 3.9 ≤ v ∧ v < 11.1 ∧ v < target_min)
    ∧ ((assess_risk v target_min target_max context).risk_level = "normal"
       ↔ 3.9 ≤ v ∧ v < 11.1 ∧ target_min ≤ v ∧ v ≤ target_max)
    ∧ (((assess_risk v target_min target_max context).risk_level = "moderate"
        ∧ (assess_risk v target_min target_max context).conclusion = "血糖略高于目标")
       ↔ 3.9 ≤ v ∧ v < 11.1 ∧ target_max < v) := by
  constructor
  · by_cases h1 : v < 3.9
    · exact Or.inl h1
    by_cases h2 : 16.7 ≤ v
    · exact Or.inr (Or.inl h2)
    by_cases h3 : 11.1 ≤ v
    · exact Or.inr (Or.inr (Or.inl ⟨h3, by linarith⟩))
    by_cases h4 : v < target_min
    · exact Or.inr (Or.inr (Or.inr (Or.inl ⟨by linarith, by linarith, h4⟩)))
    by_cases h5 : v ≤ target_max
    · exact Or.inr (Or.inr (Or.inr (Or.inr (Or.inl
        ⟨by linarith, by linarith, by linarith, h5⟩))))
    · exact Or.inr (Or.inr (Or.inr (Or.inr (Or.inr
        ⟨by linarith, by linarith, by linarith⟩))))
  · unfold assess_risk
    split_ifs with h1 h2 h3 h4 h5 <;>
      refine ⟨?_, ?_, ?_, ?_, ?_, ?_⟩ <;> simp_all <;>
      first
        | linarith
        | (constructor <;> intro <;> linarith)
        | (intro <;> linarith)
        | (intro <;> constructor <;> linarith)

/-- Witness for C1 at `v = 5.2` with the default fasting range 4.4–7.2. -/
theorem assess_risk_partitions_witness :
    (assess_risk 5.2 4.4 7.2 (some "fasting")).risk_level = "normal" :=
  ((assess_risk_partitions 5.2 4.4 7.2 (some "fasting") (by norm_num)).2.2.2.2.2.1).mpr
    (by norm_num)

/-- Claim C3: for every non-empty reading list the compliance rate lies in
[0, 100], equals 100 exactly when every reading satisfies its own context's
range, and the per-context range is the personalized-or-default fasting
band, the personalized-or-default post-meal ceiling, and the wide
3.9–11.1 band for every other context. -/
theorem calculate_target_compliance_range (readings : List GlucoseReadingRow)
    (user : UserTargets) (h : readings ≠ []) :
    (0 ≤ calculate_target_compliance readings user
      ∧ calculate_target_compliance readings user ≤ 100)
    ∧ ((∀ r ∈ readings, reading_in_target user r = true) →
        calculate_target_compliance readings user = 100)
    ∧ (∀ r : GlucoseReadingRow,
        (r.context = some "fasting" →
          (reading_in_target user r = true ↔
            pyOr user.fasting_target_min 4.4 ≤ r.value
              ∧ r.value ≤ pyOr user.fasting_target_max 7.2))
        ∧ (r.context = some "post_meal" →
            (reading_in_target user r = true ↔
              r.value ≤ pyOr user.post_meal_target_max 10))
        ∧ (r.context ≠ some "fasting" → r.context ≠ some "post_meal" →
            (reading_in_target user r = true ↔
              (3.9 : ℚ) ≤ r.value ∧ r.value ≤ 11.1))) := by
  have hne : readings.length ≠ 0 := by
    simpa [List.length_eq_zero] using h
  have hlen : (0 : ℚ) < (readings.length : ℚ) := by
    exact_mod_cast Nat.pos_of_ne_zero hne
  have hcount : (readings.countP (reading_in_target user) : ℚ) ≤ (readings.length : ℚ) := by
    exact_mod_cast List.countP_le_length (reading_in_target user)
  refine ⟨⟨?_, ?_⟩, ?_, ?_⟩
  · unfold calculate_target_compliance
    rw [if_neg (by simpa [List.isEmpty_iff] using h)]
    positivity
  · unfold calculate_target_compliance
    rw [if_neg (by simpa [List.isEmpty_iff] using h)]
    have : (readings.countP (reading_in_target user) : ℚ) / (readings.length : ℚ) ≤ 1 := by
      rw [div_le_one hlen]
      exact hcount
    nlinarith
  · intro hall
    unfold calculate_target_compliance
    rw [if_neg (by simpa [List.isEmpty_iff] using h)]
    rw [List.countP_eq_length.mpr (by simpa using hall)]
    field_simp
  · intro r
    refine ⟨fun hfast => ?_, fun hpost => ?_, fun hother1 hother2 => ?_⟩
    · simp [reading_in_target, hfast]
    · simp [reading_in_target, hpost]
    · simp [reading_in_target, hother1, hother2]

/-- Witness for C3 at a single in-range fasting reading. -/
theorem calculate_target_compliance_range_witness :
    calculate_target_compliance
      [⟨1, 5, "mmol/L", 8, some "fasting", none, none⟩] ⟨none, none, none⟩ = 100 :=
  (calculate_target_compliance_range
    [⟨1, 5, "mmol/L", 8, some "fasting", none, none⟩] ⟨none, none, none⟩
    (by decide)).2.1 (by norm_num [reading_in_target, pyOr])

/-- A row produced by matching the (user, session) key has exactly that user
id and session id. -/
theorem state_matches_fields {u : ℕ} {s : String} {st : ConversationStateRow}
    (h : state_matches u s st = true) : st.user_id = u ∧ st.session_id = s := by
  simpa [state_matches] using h

/-- The freshly-inserted row matches its own key. -/
theorem state_matches_fresh (u : ℕ) (s : String) (ct i se sl : String) :
    state_matches u s ⟨u, s, ct, i, se, sl⟩ = true := by
  simp [state_matches]

/-- One `_update_conversation_state` call on a table holding at most one row
for the key leaves exactly one row for the key, and that row is the fresh
snapshot of the call's intent, sentiment and slots. -/
theorem update_conversation_state_single (u : ℕ) (s : String) (i se sl : String) :
    ∀ (db : List ConversationStateRow), db.countP (state_matches u s) ≤ 1 →
      (update_conversation_state u s i se sl db).countP (state_matches u s) = 1
      ∧ (update_conversation_state u s i se sl db).find? (state_matches u s)
          = some ⟨u, s, i, i, se, sl⟩
  | [], _ => by
    constructor
    · simp [update_conversation_state, List.countP_cons, state_matches_fresh]
    · simp [update_conversation_state, List.find?_cons_of_pos, state_matches_fresh]
  | st :: rest, h => by
    by_cases hm : state_matches u s st = true
    · obtain ⟨hu, hs⟩ := state_matches_fields hm
      have hrest : rest.countP (state_matches u s) = 0 := by
        have hc := List.countP_cons (state_matches u s) st rest
        rw [hm] at hc
        simp at hc
        omega
      obtain ⟨a, b, c, d, e, f⟩ := st
      simp only at hu hs
      subst hu hs
      constructor
      · simp [update_conversation_state, hm, List.countP_cons, state_matches_fresh, hrest]
      · simp [update_conversation_state, hm, List.find?_cons_of_pos, state_matches_fresh]
    · have hm2 : state_matches u s st = false := by
        simpa using hm
      have hrest : rest.countP (state_matches u s) ≤ 1 := by
        have hc := List.countP_cons (state_matches u s) st rest
        rw [hm2] at hc
        simp at hc
        omega
      have ih := update_conversation_state_single u s i se sl rest hrest
      constructor
      · simp [update_conversation_state, hm2, List.countP_cons, ih.1]
      · simp [update_conversation_state, hm2, List.find?_cons_of_neg, ih.2]

/-- When the table holds no row for the key, `_update_conversation_state`
appends a fresh row at the end and leaves every existing row untouched. -/
theorem update_conversation_state_append (u : ℕ) (s : String) (i se sl : String) :
    ∀ (db : List ConversationStateRow), db.countP (state_matches u s) = 0 →
      update_conversation_state u s i se sl db = db ++ [⟨u, s, i, i, se, sl⟩]
  | [], _ => rfl
  | st :: rest, h => by
    have hst : state_matches u s st = false := by
      by_cases hb : state_matches u s st = true
      · exfalso
        have hc := List.countP_cons (state_matches u s) st rest
        rw [hb] at hc
        simp at hc
        omega
      · simpa using hb
    have hrest : rest.countP (state_matches u s) = 0 := by
      have hc := List.countP_cons (state_matches u s) st rest
      rw [hst] at hc
      simp at hc
      omega
    simp [update_conversation_state, hst,
      update_conversation_state_append u s i se sl rest hrest]

/-- Claim C9: conversation state is overwritten, never appended — starting
from a table with at most one row for the (user, session) key, two
consecutive `process_message` state updates leave exactly one row for the
key, and that row holds only the second call's intent, sentiment and
serialized slots; a session id with no row yet gets a fresh appended row,
leaving the other sessions' rows untouched. -/
theorem conversation_state_overwrite (db : List ConversationStateRow) (u : ℕ)
    (s : String) (i1 se1 sl1 i2 se2 sl2 : String)
    (h : db.countP (state_matches u s) ≤ 1) :
    (update_conversation_state u s i2 se2 sl2
        (update_conversation_state u s i1 se1 sl1 db)).countP (state_matches u s) = 1
    ∧ (update_conversation_state u s i2 se2 sl2
        (update_conversation_state u s i1 se1 sl1 db)).find? (state_matches u s)
        = some ⟨u, s, i2, i2, se2, sl2⟩
    ∧ (∀ s2 : String, db.countP (state_matches u s2) = 0 →
        update_conversation_state u s2 i1 se1 sl1 db
          = db ++ [⟨u, s2, i1, i1, se1, sl1⟩]) := by
  have h1 := update_conversation_state_single u s i1 se1 sl1 db h
  have h2 := update_conversation_state_single u s i2 se2 sl2 _ h1.1.le
  exact ⟨h2.1, h2.2, fun s2 hs2 => update_conversation_state_append u s2 i1 se1 sl1 db hs2⟩

/-- Witness for C9: two turns on an empty table leave one row holding only
the second turn's snapshot. -/
theorem conversation_state_overwrite_witness :
    (update_conversation_state 1 "sess" "ask_education" "neutral" "{}"
        (update_conversation_state 1 "sess" "record_glucose" "negative" "\x7b\"glucose_value\": 8.5\x7d"
          [])).find? (state_matches 1 "sess")
      = some ⟨1, "sess", "ask_education", "ask_education", "neutral", "{}"⟩ :=
  (conversation_state_overwrite [] 1 "sess" "record_glucose" "negative"
    "\x7b\"glucose_value\": 8.5\x7d" "ask_education" "neutral" "{}" (by decide)).2.1

/-- Claim C6 (documents the code bug): at a `record_glucose` turn with
negative sentiment, the empathy line is inserted at index 1 of the reply
fragments — after the handler's first fragment — not prepended as the first
fragment, contrary to the source's own `在开头插入共情` (insert empathy at the
beginning) comment. -/
theorem insert_empathy_not_first :
    classify_intent "血糖8.5，很失望" = "record_glucose"
    ∧ detect_sentiment "血糖8.5，很失望" = "negative"
    ∧ (provide_support "血糖8.5，很失望").empathy
        = "我理解您的沮丧，血糖管理确实是一个长期的过程，偶尔的波动是正常的。"
    ∧ insert_empathy "血糖8.5，很失望"
        ["已为您记录血糖值：8.5 mmol/L（8.5 mmol/L），测量类型：fasting"]
        = ["已为您记录血糖值：8.5 mmol/L（8.5 mmol/L），测量类型：fasting",
           "我理解您的沮丧，血糖管理确实是一个长期的过程，偶尔的波动是正常的。"]
    ∧ (insert_empathy "血糖8.5，很失望"
        ["已为您记录血糖值：8.5 mmol/L（8.5 mmol/L），测量类型：fasting"]).head?
        ≠ some "我理解您的沮丧，血糖管理确实是一个长期的过程，偶尔的波动是正常的。" := by
  decide

/-- Claim C10: after a successful `log_glucose`, the returned dict has no
`"context"` key, so the orchestrator's automatic analysis receives
`context = None`, target-range resolution falls to the wide 3.9–11.1 band,
and the 7-day trend history is left unfiltered. -/
theorem auto_analysis_context_none (user_id : ℕ) (text : String) (hour : ℕ)
    (unit context meal_type : Option String) (hours_after_meal : Option ℚ)
    (reading_id : ℕ) (v : ℚ) (hsucc : extract_glucose_value text = some v)
    (user : UserTargets) (history : List GlucoseReadingRow) :
    dictGet (log_glucose user_id text hour unit context meal_type hours_after_meal
        reading_id).snd "context" = none
    ∧ auto_analysis_context (log_glucose user_id text hour unit context meal_type
        hours_after_meal reading_id).snd = none
    ∧ get_target_range user (auto_analysis_context (log_glucose user_id text hour unit
        context meal_type hours_after_meal reading_id).snd) = (3.9, 11.1)
    ∧ trend_readings (auto_analysis_context (log_glucose user_id text hour unit context
        meal_type hours_after_meal reading_id).snd) history = history := by
  have hdict : dictGet (log_glucose user_id text hour unit context meal_type
      hours_after_meal reading_id).snd "context" = none := by
    simp [log_glucose, hsucc, dictGet]
  have hctx : auto_analysis_context (log_glucose user_id text hour unit context meal_type
      hours_after_meal reading_id).snd = none := by
    simp [auto_analysis_context, hdict]
  refine ⟨hdict, hctx, ?_, ?_⟩
  · rw [hctx]
    rfl
  · rw [hctx]
    rfl

/-- Witness for C10 at a successfully parsed fasting report. -/
theorem auto_analysis_context_none_witness :
    get_target_range ⟨none, none, none⟩
      (auto_analysis_context
        (log_glucose 1 "今天空腹测的血糖7" 8 none none none none 42).snd) = (3.9, 11.1) :=
  (auto_analysis_context_none 1 "今天空腹测的血糖7" 8 none none none none 42 7
    (by decide) ⟨none, none, none⟩ []).2.2.1

/-- An occurrence of a pattern contains an occurrence of each of the
pattern's prefixes. -/
theorem containsSub_of_isPrefixOf (p q : List Char) (hpq : List.isPrefixOf p q = true) :
    ∀ (u : List Char), containsSub q u = true → containsSub p u = true
  | [], h => by
    have hq : q = [] := by simpa [containsSub, List.isEmpty_iff] using h
    subst hq
    have hp : p = [] := by simpa using hpq
    simp [hp, containsSub]
  | c :: u, h => by
    rw [containsSub, Bool.or_eq_true] at h ⊢
    rcases h with h | h
    · left
      rw [List.isPrefixOf_iff_prefix] at hpq h ⊢
      exact hpq.trans h
    · exact Or.inr (containsSub_of_isPrefixOf p q hpq u h)

/-- When the lowercased text has no `"mg"` occurrence, `detect_unit` returns
the `"mmol/L"` default. -/
theorem detect_unit_no_mg (t : String)
    (hmg : containsSub "mg".toList (lowerList t) = false) : detect_unit t = "mmol/L" := by
  have hmgdl : containsSub "mg/dl".toList (lowerList t) = false := by
    by_contra hc
    rw [Bool.not_eq_false] at hc
    have := containsSub_of_isPrefixOf "mg".toList "mg/dl".toList (by decide) (lowerList t) hc
    rw [this] at hmg
    exact Bool.true_eq_false.mp hmg
  have hmg2 : containsSub ['m', 'g'] (lowerList t) = false := by simpa using hmg
  have hmgdl2 : containsSub ['m', 'g', '/', 'd', 'l'] (lowerList t) = false := by
    simpa using hmgdl
  simp [detect_unit, hmg2, hmgdl2]

/-- The number-then-unit pattern cannot match at a non-digit start
position. -/
theorem glucosePat1At_nondigit (c : Char) (u : List Char) (h : pyIsDigit c = false) :
    glucosePat1At (c :: u) = none := by
  simp [glucosePat1At, parseNum, List.takeWhile_cons, h]

/-- The leftmost search skips any prefix on which the matcher fails at every
start position; stated for matchers that fail at non-digit heads, over
prefixes with no digit. -/
theorem reSearch_skip_nondigit {α : Type} (f : List Char → Option α)
    (hf : ∀ (c : Char) (u : List Char), pyIsDigit c = false → f (c :: u) = none) :
    ∀ (p r : List Char), (∀ c ∈ p, pyIsDigit c = false) →
      reSearch f (p ++ r) = reSearch f r
  | [], _, _ => rfl
  | c :: p, r, hp => by
    have hc : pyIsDigit c = false := hp c (List.mem_cons_self c p)
    rw [List.cons_append, reSearch, hf c (p ++ r) hc]
    exact reSearch_skip_nondigit f hf p r (fun d hd => hp d (List.mem_cons_of_mem c hd))

/-- At a position spelling `8.5mmol`, the number-then-unit pattern matches
and captures 8.5, whatever follows. -/
theorem glucosePat1At_85mmol (s : List Char) :
    glucosePat1At ('8' :: '.' :: '5' :: 'm' :: 'm' :: 'o' :: 'l' :: s) = some 8.5 := by
  have h8 : digitsVal ['8'] = 8 := by decide
  have h5 : digitsVal ['5'] = 5 := by decide
  have hm : "mmol".toList = ['m', 'm', 'o', 'l'] := by decide
  simp +decide [glucosePat1At, parseNum, List.takeWhile_cons, List.dropWhile_cons,
    h8, h5, hm, List.isPrefixOf]
  norm_num

/-- Claim C7 fails as stated: `"7 mmol 8.5 mg"` contains both `"8.5"` and
`"mmol"`, yet the leftmost number-with-unit match captures 7, and the
`"mg"` occurrence makes `detect_unit` answer mg/dL. -/
theorem extract_and_unit_counterexample :
    containsSub "8.5".toList "7 mmol 8.5 mg".toList = true
    ∧ containsSub "mmol".toList "7 mmol 8.5 mg".toList = true
    ∧ extract_glucose_value "7 mmol 8.5 mg" = some 7
    ∧ extract_glucose_value "7 mmol 8.5 mg" ≠ some 8.5
    ∧ detect_unit "7 mmol 8.5 mg" = "mg/dL"
    ∧ detect_unit "7 mmol 8.5 mg" ≠ "mmol/L" := by
  have h7 : extract_glucose_value "7 mmol 8.5 mg" = some 7 := by decide
  refine ⟨by decide, by decide, h7, ?_, by decide, by decide⟩
  rw [h7]
  intro hc
  rw [Option.some.injEq] at hc
  norm_num at hc

/-- Claim C7 (amended): for every text whose lowercased form is a digit-free
prefix, then `8.5mmol`, then an arbitrary suffix, and which contains no
`"mg"` (case-insensitively), `extract_glucose_value` returns 8.5 and
`detect_unit` returns mmol/L. -/
theorem extract_and_unit_85mmol (t : String) (p s : List Char)
    (hsplit : lowerList t = p ++ "8.5mmol".toList ++ s)
    (hp : ∀ c ∈ p, pyIsDigit c = false)
    (hmg : containsSub "mg".toList (lowerList t) = false) :
    extract_glucose_value t = some 8.5 ∧ detect_unit t = "mmol/L" := by
  refine ⟨?_, detect_unit_no_mg t hmg⟩
  have h85 : "8.5mmol".toList = ['8', '.', '5', 'm', 'm', 'o', 'l'] := by decide
  have hscan : reSearch glucosePat1At (lowerList t) = some 8.5 := by
    rw [hsplit, h85, List.append_assoc,
      reSearch_skip_nondigit glucosePat1At glucosePat1At_nondigit p _ hp]
    simp only [List.cons_append, List.nil_append]
    rw [reSearch, glucosePat1At_85mmol]
  rw [extract_glucose_value]
  rw [hscan]

/-- Witness for C7 (amended) at the text `"血糖8.5mmol"`. -/
theorem extract_and_unit_85mmol_witness :
    extract_glucose_value "血糖8.5mmol" = some 8.5
    ∧ detect_unit "血糖8.5mmol" = "mmol/L" :=
  extract_and_unit_85mmol "血糖8.5mmol" "血糖".toList [] (by decide) (by decide) (by decide)

end DigiGlucose
